import Mathlib

/-!
Verification of the TaskFlow task-list and task-comments components
(`src/components/task-list.tsx`, `src/components/task-comments.tsx`).

The TypeScript components are shallowly embedded: pure helpers become Lean
functions, the `useOptimistic` reducer becomes an explicit reducer over a
list of tasks, and event handlers become functions returning the external
mutation calls they issue together with the local state they leave behind.
JavaScript strings are modelled as `List Char` (so that every string
operation is structurally recursive and executable), and JavaScript
truthiness of optional numeric ids is modelled explicitly.
-/

namespace TaskFlow

/-- A JavaScript string, modelled as its sequence of characters. -/
abbrev JSStr := List Char

/-- Task status enumeration: `todo | in_progress | done`
(the `status` field of the Prisma `Task` model). -/
inductive Status where
  | todo
  | in_progress
  | done
deriving DecidableEq, Repr

/-- Task priority enumeration: `low | medium | high`. -/
inductive Priority where
  | low
  | medium
  | high
deriving DecidableEq, Repr

/-- `Pick<User, "name">`: the assignee profile carried on a task.
`name` is nullable (`getInitials` accepts `string | null`). -/
structure UserName where
  name : Option JSStr
deriving DecidableEq, Repr

/-- `Pick<User, "id" | "name" | "email">`: the author embedded in a comment,
and the shape returned by `getCurrentUser()`. -/
structure Author where
  id : Int
  name : Option JSStr
  email : JSStr
deriving DecidableEq, Repr

/-- `CommentWithAuthor = Comment & { author: Pick<User, "id"|"name"|"email"> }`.
`createdAt` (a `DateTime`) is modelled as an integer timestamp. -/
structure CommentWithAuthor where
  id : Int
  content : JSStr
  authorId : Int
  createdAt : Int
  author : Author
deriving DecidableEq, Repr

/-- `TaskWithProfile = PrismaTask & { assignee?: ...; comments?: ... }`.
The optional `assignee` and `comments` fields are modelled with `Option` and
a (possibly empty) list. -/
structure TaskWithProfile where
  id : Int
  name : JSStr
  description : JSStr
  status : Status
  priority : Priority
  dueDate : Option Int
  assignee : Option UserName
  creatorId : Int
  comments : List CommentWithAuthor
deriving DecidableEq, Repr

/-- The action union fed to the `useOptimistic` reducer in `TaskList`:
`{ action: "delete" | "toggle"; task }`.  The reducer only ever reads
`task.id`, so the embedded action carries just the id. -/
inductive OptimisticAction where
  | delete (taskId : Int)
  | toggle (taskId : Int)
deriving DecidableEq, Repr

/-- The status flip used by the toggle branch of the reducer:
`t.status === "done" ? "todo" : "done"`. -/
def toggleStatus (s : Status) : Status :=
  if s = Status.done then Status.todo else Status.done

/-- The per-task update of the toggle branch:
`t.id === task.id ? { ...t, status: t.status === "done" ? "todo" : "done" } : t`. -/
def applyToggle (taskId : Int) (t : TaskWithProfile) : TaskWithProfile :=
  if t.id = taskId then { t with status := toggleStatus t.status } else t

/-- The `useOptimistic` reducer of `TaskList` (task-list.tsx lines 31-42):
`delete` filters the task out (`state.filter((t) => t.id !== task.id)`),
`toggle` maps the status flip over the matching task. -/
def optimisticReducer (state : List TaskWithProfile) (a : OptimisticAction) :
    List TaskWithProfile :=
  match a with
  | OptimisticAction.delete taskId => state.filter (fun t => t.id != taskId)
  | OptimisticAction.toggle taskId => state.map (applyToggle taskId)

/-- A sequence of optimistic actions applied in order to a base state
(the overlay as "confirmed state plus pending local actions"). -/
def applyActions (state : List TaskWithProfile) (as : List OptimisticAction) :
    List TaskWithProfile :=
  as.foldl optimisticReducer state

/-- The pair of effects of `handleToggle` (task-list.tsx lines 68-73): the
optimistic action dispatched, and the argument pair of the external
`updateTaskStatus(task.id, task.status === "done" ? "todo" : "done")` call. -/
structure ToggleEffects where
  optimisticAction : OptimisticAction
  mutationCall : Int × Status
deriving DecidableEq, Repr

/-- `handleToggle(task)`: dispatches the toggle action for `task.id` and calls
`updateTaskStatus` with the opposite of the task's confirmed status. -/
def handleToggle (task : TaskWithProfile) : ToggleEffects :=
  { optimisticAction := OptimisticAction.toggle task.id
    mutationCall :=
      (task.id, if task.status = Status.done then Status.todo else Status.done) }

/-- `handleDelete(taskId)` (task-list.tsx lines 61-66): dispatches the delete
action for `taskId` and calls `deleteTask(taskId)`.  Returned as the pair
(optimistic action, argument of the external delete mutation). -/
def handleDelete (taskId : Int) : OptimisticAction × Int :=
  (OptimisticAction.delete taskId, taskId)

/-- A concrete task used in counterexamples and witnesses. -/
def mkTask (id : Int) (s : Status) : TaskWithProfile :=
  { id := id
    name := [ 'T', 'a', 's', 'k' ]
    description := []
    status := s
    priority := Priority.medium
    dueDate := none
    assignee := none
    creatorId := 1
    comments := [] }

/-- JavaScript truthiness of an optional numeric id (`currentUserId?: number`):
`undefined` is falsy, the number `0` is falsy, any other number is truthy. -/
def jsTruthyNum (n : Option Int) : Bool :=
  match n with
  | none => false
  | some v => v != 0

/-- `canDeleteComment(comment)` (task-comments.tsx lines 54-56):
`currentUserId && (comment.authorId === currentUserId || taskCreatorId === currentUserId)`.
The JS expression evaluates to `currentUserId` itself (falsy) when
`currentUserId` is `undefined` or `0`, and to the boolean disjunction
otherwise; this function returns the truthiness of that value, which is what
the conditional rendering of the delete button consumes.  `===` on a number
versus a possibly-undefined number is equality on `Option Int` against
`some`; `===` between the two optional props is equality on `Option Int`. -/
def canDeleteComment (currentUserId taskCreatorId : Option Int)
    (comment : CommentWithAuthor) : Bool :=
  jsTruthyNum currentUserId &&
    (some comment.authorId == currentUserId || taskCreatorId == currentUserId)

/-- The whitespace class of `String.prototype.trim` / `\s`: tab, LF, VT, FF,
CR, space, NBSP (further Unicode space separators exist in JS but are not
needed by any claim and are omitted). -/
def jsWhitespace (c : Char) : Bool :=
  c == ' ' || c == '\t' || c == '\n' || c == '\r' ||
    c == Char.ofNat 11 || c == Char.ofNat 12 || c == Char.ofNat 160

/-- `String.prototype.trim`: remove leading and trailing whitespace. -/
def jsTrim (s : JSStr) : JSStr :=
  ((s.dropWhile jsWhitespace).reverse.dropWhile jsWhitespace).reverse

/-- `String.prototype.split(sep)` with a single-character separator: split at
every occurrence of `sep`; adjacent separators yield empty tokens, and the
result is never the empty list (`"".split(" ")` is `[""]`). -/
def jsSplitOnChar (sep : Char) (s : JSStr) : List JSStr :=
  match s with
  | [] => [[]]
  | c :: rest =>
    if c = sep then [] :: jsSplitOnChar sep rest
    else
      match jsSplitOnChar sep rest with
      | [] => [[c]]
      | w :: ws => (c :: w) :: ws

/-- Splitting at every character satisfying a predicate (used only by the
spec-worded variant of the initials derivation, which splits on
"whitespace"). -/
def jsSplitOnPred (p : Char → Bool) (s : JSStr) : List JSStr :=
  match s with
  | [] => [[]]
  | c :: rest =>
    if p c then [] :: jsSplitOnPred p rest
    else
      match jsSplitOnPred p rest with
      | [] => [[c]]
      | w :: ws => (c :: w) :: ws

/-- `getInitials(name)` (identical in task-list.tsx lines 84-91 and
task-comments.tsx lines 45-52): `if (!name) return "??"` — the guard fires
for `null` and for the empty string — then
`name.split(" ").map((n) => n[0]).join("").toUpperCase()`.
`split(" ")` splits on the single space character; an empty token's `n[0]`
is `undefined`, which `join("")` renders as the empty string, so empty
tokens contribute nothing (`List.take 1` of the empty token); `toUpperCase`
is modelled by `Char.toUpper` on each character. -/
def getInitials (name : Option JSStr) : JSStr :=
  match name with
  | none => [ '?', '?' ]
  | some n =>
    if n = [] then [ '?', '?' ]
    else (((jsSplitOnChar ' ' n).map (fun w => w.take 1)).flatten).map Char.toUpper

/-- Modelled from the spec's own description of the initials derivation
("split on whitespace, take first character of each token, concatenate,
uppercase; if no name, render a fixed two-character placeholder"), to be
compared with `getInitials` as embedded from the source. -/
def getInitialsSpecWhitespace (name : Option JSStr) : JSStr :=
  match name with
  | none => [ '?', '?' ]
  | some n =>
    if n = [] then [ '?', '?' ]
    else
      (((jsSplitOnPred jsWhitespace n).map (fun w => w.take 1)).foldl
        (fun acc w => acc ++ w) []).map Char.toUpper

/-- The amended description of the initials derivation: split on the space
character (U+0020) only, take the first character of each token (empty
tokens contribute nothing), concatenate, uppercase; a missing (`null`) or
empty name gives the fixed placeholder. -/
def getInitialsSpecSpace (name : Option JSStr) : JSStr :=
  match name with
  | none => [ '?', '?' ]
  | some n =>
    if n = [] then [ '?', '?' ]
    else
      (((jsSplitOnChar ' ' n).map (fun w => w.take 1)).foldl
        (fun acc w => acc ++ w) []).map Char.toUpper

/-- The result object of the external `addComment` server action, as consumed
by `handleAddComment`: only its `success` flag is read. -/
structure AddCommentResult where
  success : Bool
deriving DecidableEq, Repr

/-- `handleAddComment` (task-comments.tsx lines 28-37), as a function of the
current input state `newComment` and of the result the external mutation
returns when invoked.  Output: the external call made (`none` when the
handler returns early on blank input, otherwise `some (taskId, rawContent)`)
and the value of the local input state afterwards.
`if (!newComment.trim()) return` is the blank guard (`trim` removes leading
and trailing whitespace; the empty string is falsy); on the other branch
`addComment(taskId, newComment)` receives the raw untrimmed content, and
`setNewComment("")` runs only under `if (result.success)`. -/
def handleAddComment (taskId : Int) (newComment : JSStr)
    (result : AddCommentResult) : Option (Int × JSStr) × JSStr :=
  if jsTrim newComment = [] then (none, newComment)
  else (some (taskId, newComment), if result.success then [] else newComment)

/-- `handleDeleteComment(commentId)` (task-comments.tsx lines 39-43): the body
only awaits the external `deleteComment(commentId)` mutation; it performs no
local state update and does not touch the `comments` prop.  Output: the
local input state afterwards, the comments prop snapshot afterwards, and the
argument of the external delete-comment call. -/
def handleDeleteComment (commentId : Int) (newComment : JSStr)
    (comments : List CommentWithAuthor) :
    JSStr × List CommentWithAuthor × Int :=
  (newComment, comments, commentId)

/-- One rendered comment row of `TaskComments`: avatar initials, author name,
timestamp, content, and whether the delete button is rendered
(`{canDeleteComment(comment) && <Button .../>}`). -/
structure RenderedComment where
  initials : JSStr
  authorName : Option JSStr
  createdAt : Int
  content : JSStr
  showDeleteButton : Bool
deriving DecidableEq, Repr

/-- The rendered output of `TaskComments` (task-comments.tsx lines 58-131):
the comment count of the heading, whether the empty-state message shows,
one row per comment, and whether the add-comment form is rendered
(`{currentUserId && (...)}` — truthiness of the optional id). -/
structure TaskCommentsRender where
  commentCount : Nat
  showEmptyMessage : Bool
  commentRows : List RenderedComment
  showAddForm : Bool
deriving DecidableEq, Repr

/-- The render function of `TaskComments` as a function of its props. -/
def renderTaskComments (comments : List CommentWithAuthor)
    (currentUserId taskCreatorId : Option Int) : TaskCommentsRender :=
  { commentCount := comments.length
    showEmptyMessage := comments.length == 0
    commentRows := comments.map (fun c =>
      { initials := getInitials c.author.name
        authorName := c.author.name
        createdAt := c.createdAt
        content := c.content
        showDeleteButton := canDeleteComment currentUserId taskCreatorId c })
    showAddForm := jsTruthyNum currentUserId }

/-- The `loadCurrentUser` effect body (task-list.tsx lines 48-59):
`getCurrentUser()` either resolves with a user-or-null or rejects; on
resolution `setCurrentUser(user)` stores the result, on rejection the error
is caught (logged only) and the `currentUser` state is left as it was. -/
def loadCurrentUser (outcome : Except Unit (Option Author))
    (currentUser : Option Author) : Option Author :=
  match outcome with
  | Except.ok user => user
  | Except.error _ => currentUser

/-- A comment whose author id is `0`, used to exhibit the truthiness gap in
`canDeleteComment`. -/
def zeroIdComment : CommentWithAuthor :=
  { id := 7
    content := "hello".toList
    authorId := 0
    createdAt := 0
    author := { id := 0, name := some [ 'Z' ], email := [] } }

lemma applyToggle_id (taskId : Int) (t : TaskWithProfile) :
    (applyToggle taskId t).id = t.id := by
  unfold applyToggle
  split <;> rfl

lemma toggleStatus_toggleStatus (s : Status) (h : s ≠ Status.in_progress) :
    toggleStatus (toggleStatus s) = s := by
  cases s with
  | todo => rfl
  | in_progress => exact absurd rfl h
  | done => rfl

lemma applyToggle_applyToggle (taskId : Int) (t : TaskWithProfile)
    (h : t.id = taskId → t.status ≠ Status.in_progress) :
    applyToggle taskId (applyToggle taskId t) = t := by
  obtain ⟨tid, tname, tdesc, tstat, tprio, tdue, tass, tcr, tcom⟩ := t
  by_cases hid : tid = taskId
  · have hs : tstat ≠ Status.in_progress := h hid
    cases tstat with
    | todo => simp [applyToggle, toggleStatus, hid]
    | in_progress => exact absurd rfl hs
    | done => simp [applyToggle, toggleStatus, hid]
  · simp [applyToggle, hid]

lemma map_applyToggle_applyToggle (taskId : Int) :
    ∀ state : List TaskWithProfile,
      (∀ t ∈ state, t.id = taskId → t.status ≠ Status.in_progress) →
      (state.map (applyToggle taskId)).map (applyToggle taskId) = state := by
  intro state
  induction state with
  | nil => intro _; rfl
  | cons t ts ih =>
    intro h
    simp only [List.map_cons]
    rw [applyToggle_applyToggle taskId t (h t (List.mem_cons_self t ts))]
    rw [ih (fun u hu => h u (List.mem_cons_of_mem t hu))]

lemma mem_reducer_delete_iff (state : List TaskWithProfile) (taskId : Int)
    (t : TaskWithProfile) :
    t ∈ optimisticReducer state (OptimisticAction.delete taskId) ↔
      t ∈ state ∧ t.id ≠ taskId := by
  simp [optimisticReducer, List.mem_filter, bne_iff_ne]

lemma reducer_preserves_absent (state : List TaskWithProfile)
    (a : OptimisticAction) (taskId : Int) (h : ∀ t ∈ state, t.id ≠ taskId) :
    ∀ t ∈ optimisticReducer state a, t.id ≠ taskId := by
  intro t ht
  cases a with
  | delete taskId2 =>
    exact h t ((mem_reducer_delete_iff state taskId2 t).mp ht).1
  | toggle taskId2 =>
    simp only [optimisticReducer, List.mem_map] at ht
    obtain ⟨u, hu, rfl⟩ := ht
    rw [applyToggle_id]
    exact h u hu

lemma applyActions_preserves_absent (as : List OptimisticAction)
    (state : List TaskWithProfile) (taskId : Int)
    (h : ∀ t ∈ state, t.id ≠ taskId) :
    ∀ t ∈ applyActions state as, t.id ≠ taskId := by
  induction as generalizing state with
  | nil => exact h
  | cons a rest ih =>
    exact ih (optimisticReducer state a) (reducer_preserves_absent state a taskId h)

lemma foldl_append_eq_flatten (l : List JSStr) (acc : JSStr) :
    l.foldl (fun a w => a ++ w) acc = acc ++ l.flatten := by
  induction l generalizing acc with
  | nil => simp
  | cons w ws ih => simp [ih, List.append_assoc]

/-- C1 (counterexample): in the optimistic overlay holding one task with id 1
and status `in_progress`, dispatching the toggle action for that task twice
in sequence (no authoritative refresh in between) leaves the task at status
`todo`, not at its original status `in_progress`.  The reducer maps
`done ↦ todo` and everything else (including `in_progress`) `↦ done`, so the
double toggle is not the identity on an `in_progress` task. -/
theorem C1_counterexample_in_progress :
    (mkTask 1 Status.in_progress).status = Status.in_progress ∧
    (applyActions [mkTask 1 Status.in_progress]
        [OptimisticAction.toggle 1, OptimisticAction.toggle 1]).map
      TaskWithProfile.status = [Status.todo] ∧
    Status.todo ≠ Status.in_progress := by
  refine ⟨rfl, by decide, by decide⟩

/-- C1 (amended): for every task in the optimistic overlay whose status is
`todo` or `done` (i.e. not `in_progress`), applying the toggle action twice
in sequence returns the overlay to exactly its original value — in
particular every such task's status returns to its original value. -/
theorem C1_toggle_twice_restores_status (state : List TaskWithProfile)
    (taskId : Int)
    (h : ∀ t ∈ state, t.id = taskId → t.status ≠ Status.in_progress) :
    applyActions state
        [OptimisticAction.toggle taskId, OptimisticAction.toggle taskId]
      = state := by
  show optimisticReducer (optimisticReducer state (OptimisticAction.toggle taskId))
      (OptimisticAction.toggle taskId) = state
  exact map_applyToggle_applyToggle taskId state h

/-- Witness for C1 (amended): a concrete overlay with a single `done` task is
restored exactly by a double toggle. -/
theorem C1_toggle_twice_restores_status_witness :
    applyActions [mkTask 1 Status.done]
        [OptimisticAction.toggle 1, OptimisticAction.toggle 1]
      = [mkTask 1 Status.done] :=
  C1_toggle_twice_restores_status [mkTask 1 Status.done] 1 (by decide)

/-- C2 (counterexample): with `currentUserId = 0` (a defined id) and a comment
authored by user 0, the claim's biconditional fails: `currentUserId` is
defined and equals the comment's author id, yet `canDeleteComment` is falsy,
because the JS expression `currentUserId && (...)` short-circuits on the
falsy number `0`. -/
theorem C2_counterexample_zero_id :
    ¬ (canDeleteComment (some 0) (some 3) zeroIdComment = true ↔
        (some (0 : Int)).isSome = true ∧
        (zeroIdComment.authorId = 0 ∨ (some 3 : Option Int) = some 0)) := by
  decide

/-- C2 (amended): `canDeleteComment` is truthy if and only if `currentUserId`
is defined with a nonzero value `u` and (`u` equals the comment's author id
or `u` equals the task creator id); it is falsy in all other cases,
including when `currentUserId` is undefined or `0`. -/
theorem C2_canDelete_iff (currentUserId taskCreatorId : Option Int)
    (comment : CommentWithAuthor) :
    canDeleteComment currentUserId taskCreatorId comment = true ↔
      ∃ u : Int, currentUserId = some u ∧ u ≠ 0 ∧
        (comment.authorId = u ∨ taskCreatorId = some u) := by
  cases currentUserId with
  | none => simp [canDeleteComment, jsTruthyNum]
  | some u =>
    simp only [canDeleteComment, jsTruthyNum, Bool.and_eq_true, Bool.or_eq_true,
      bne_iff_ne, beq_iff_eq, Option.some.injEq]
    constructor
    · rintro ⟨hu, h⟩
      exact ⟨u, rfl, hu, h⟩
    · rintro ⟨v, rfl, hvne, h⟩
      exact ⟨hvne, h⟩

/-- C3: submitting the add-comment action with a string that trims to empty
makes no external call and leaves the input unchanged; any other string is
sent raw (untrimmed) to the external mutation, and the input is cleared
exactly when the result's success flag is true — on a falsy success flag
the input text is retained. -/
theorem C3_handleAddComment_cases (taskId : Int) (s : JSStr)
    (r : AddCommentResult) :
    (jsTrim s = [] → handleAddComment taskId s r = (none, s)) ∧
    (jsTrim s ≠ [] →
      (handleAddComment taskId s r).1 = some (taskId, s) ∧
      ((handleAddComment taskId s r).2 = [] ↔ r.success = true) ∧
      (r.success = false → (handleAddComment taskId s r).2 = s)) := by
  constructor
  · intro h
    simp [handleAddComment, h]
  · intro h
    have hs : s ≠ [] := by
      intro e
      apply h
      rw [e]
      rfl
    refine ⟨by simp [handleAddComment, h], ?_, ?_⟩
    · cases hr : r.success with
      | true => simp [handleAddComment, h, hr]
      | false => simp [handleAddComment, h, hr, hs]
    · intro hr
      simp [handleAddComment, h, hr]

/-- Witness for C3: the whitespace-only input `"  "` produces no call and an
unchanged input; the input `"hi"` with a failed mutation is retained. -/
theorem C3_handleAddComment_witness :
    handleAddComment 5 "  ".toList { success := true } = (none, "  ".toList) ∧
    (handleAddComment 5 "hi".toList { success := false }).2 = "hi".toList := by
  constructor
  · exact (C3_handleAddComment_cases 5 "  ".toList { success := true }).1
      (by decide)
  · exact ((C3_handleAddComment_cases 5 "hi".toList { success := false }).2
      (by decide)).2.2 rfl

/-- C4: dispatching the delete action of `handleDelete` removes every task
with that id from the optimistic overlay at once (the `rest = []` instance),
and after any further sequence of toggle/delete actions — the only
transitions this component instance can make, whatever the mutation's
outcome — no task with that id is ever present again: the reducer has no
branch that inserts a task. -/
theorem C4_deleted_task_never_reappears (state : List TaskWithProfile)
    (taskId : Int) (rest : List OptimisticAction) :
    (applyActions (optimisticReducer state (handleDelete taskId).1) rest).all
      (fun t => t.id != taskId) = true := by
  rw [List.all_eq_true]
  intro t ht
  rw [bne_iff_ne]
  exact applyActions_preserves_absent rest
    (optimisticReducer state (OptimisticAction.delete taskId)) taskId
    (fun u hu => ((mem_reducer_delete_iff state taskId u).mp hu).2) t ht

/-- C5: `handleToggle` calls the external `updateTaskStatus` mutation with the
opposite of the task's confirmed status: `todo` when the confirmed status is
`done`, and `done` otherwise — in particular `done` is sent for an
`in_progress` task. -/
theorem C5_toggle_mutation_opposite (task : TaskWithProfile) :
    (task.status = Status.done →
      (handleToggle task).mutationCall = (task.id, Status.todo)) ∧
    (task.status ≠ Status.done →
      (handleToggle task).mutationCall = (task.id, Status.done)) := by
  constructor <;> intro h <;> simp [handleToggle, h]

/-- Witness for C5: a `done` task yields the argument `todo`, and an
`in_progress` task yields the argument `done`. -/
theorem C5_toggle_mutation_opposite_witness :
    (handleToggle (mkTask 1 Status.done)).mutationCall = (1, Status.todo) ∧
    (handleToggle (mkTask 2 Status.in_progress)).mutationCall
      = (2, Status.done) :=
  ⟨(C5_toggle_mutation_opposite (mkTask 1 Status.done)).1 rfl,
   (C5_toggle_mutation_opposite (mkTask 2 Status.in_progress)).2 (by decide)⟩

/-- C6 (counterexample): the initials derivation splits on the space character
only, not on whitespace in general: on the tab-separated name
`"Jane\tSmith"` the code yields `"J"` while the claim's split-on-whitespace
description yields `"JS"`. -/
theorem C6_initials_counterexample :
    getInitials (some "Jane\tSmith".toList) = "J".toList ∧
    getInitialsSpecWhitespace (some "Jane\tSmith".toList) = "JS".toList ∧
    getInitials (some "Jane\tSmith".toList) ≠
      getInitialsSpecWhitespace (some "Jane\tSmith".toList) := by
  refine ⟨by decide, by decide, by decide⟩

/-- C6 (amended): the initials derivation, given a non-null non-empty name,
splits it on the space character (U+0020), takes the first character of each
token (empty tokens contribute nothing), concatenates them, and uppercases
the result — so `"Jane Smith"` yields `"JS"` — and given no name it returns
the fixed two-character placeholder `"??"`. -/
theorem C6_initials_amended :
    (∀ name, getInitials name = getInitialsSpecSpace name) ∧
    getInitials (some "Jane Smith".toList) = "JS".toList ∧
    getInitials none = [ '?', '?' ] := by
  refine ⟨?_, by decide, rfl⟩
  intro name
  cases name with
  | none => rfl
  | some n =>
    simp only [getInitials, getInitialsSpecSpace]
    by_cases hn : n = []
    · rw [if_pos hn, if_pos hn]
    · rw [if_neg hn, if_neg hn, foldl_append_eq_flatten, List.nil_append]

/-- C7: when `getCurrentUser()` rejects, `loadCurrentUser` leaves the current
user unset (`none`), and in the resulting render of `TaskComments` — which
receives `currentUser?.id`, i.e. `none` — the add-comment form is absent
while the comment list still renders one row per comment. -/
theorem C7_user_fetch_failure (comments : List CommentWithAuthor)
    (taskCreatorId : Option Int) :
    loadCurrentUser (Except.error ()) none = none ∧
    (renderTaskComments comments
        ((loadCurrentUser (Except.error ()) none).map Author.id)
        taskCreatorId).showAddForm = false ∧
    (renderTaskComments comments
        ((loadCurrentUser (Except.error ()) none).map Author.id)
        taskCreatorId).commentRows.map RenderedComment.content
      = comments.map CommentWithAuthor.content := by
  refine ⟨rfl, rfl, ?_⟩
  rw [renderTaskComments, List.map_map]
  rfl

/-- C8: `handleDeleteComment` changes nothing the component renders from: the
local input state and the `comments` prop snapshot are returned unchanged
(only the external `deleteComment` call is issued), so the render — a
function of the comments prop — is identical before and after; the deleted
comment's row remains until the prop is refreshed externally, in contrast
with the optimistic task deletion of `TaskList`. -/
theorem C8_delete_comment_frame (comments : List CommentWithAuthor)
    (currentUserId taskCreatorId : Option Int) (commentId : Int)
    (input : JSStr) :
    (handleDeleteComment commentId input comments).1 = input ∧
    (handleDeleteComment commentId input comments).2.1 = comments ∧
    (handleDeleteComment commentId input comments).2.2 = commentId ∧
    renderTaskComments (handleDeleteComment commentId input comments).2.1
        currentUserId taskCreatorId
      = renderTaskComments comments currentUserId taskCreatorId :=
  ⟨rfl, rfl, rfl, rfl⟩

/-- C9: the initials derivation treats the empty string like a missing name —
the guard `if (!name)` is a truthiness check, so `getInitials` returns the
placeholder `"??"` for the empty string just as for `null`. -/
theorem C9_initials_empty_string_placeholder :
    getInitials (some []) = [ '?', '?' ] ∧ getInitials none = [ '?', '?' ] :=
  ⟨rfl, rfl⟩

/-- C10: the optimistic reducer is frame-preserving.  A toggle action leaves
every task with a different id unchanged and, on the matching task, changes
only the status field — id, name, description, priority, due date,
assignee, creator and comments are untouched — and the toggle branch is
exactly the element-wise map of that update.  A delete action keeps every
task with a different id and removes exactly the tasks with the given id. -/
theorem C10_reducer_frame (taskId : Int) (t : TaskWithProfile)
    (state : List TaskWithProfile) :
    (t.id ≠ taskId → applyToggle taskId t = t) ∧
    ((applyToggle taskId t).id = t.id ∧
      (applyToggle taskId t).name = t.name ∧
      (applyToggle taskId t).description = t.description ∧
      (applyToggle taskId t).priority = t.priority ∧
      (applyToggle taskId t).dueDate = t.dueDate ∧
      (applyToggle taskId t).assignee = t.assignee ∧
      (applyToggle taskId t).creatorId = t.creatorId ∧
      (applyToggle taskId t).comments = t.comments) ∧
    optimisticReducer state (OptimisticAction.toggle taskId)
      = state.map (applyToggle taskId) ∧
    (∀ u ∈ state, u.id ≠ taskId →
      u ∈ optimisticReducer state (OptimisticAction.delete taskId)) ∧
    (∀ u ∈ optimisticReducer state (OptimisticAction.delete taskId),
      u ∈ state ∧ u.id ≠ taskId) := by
  refine ⟨?_, ?_, rfl, ?_, ?_⟩
  · intro h
    simp [applyToggle, h]
  · unfold applyToggle
    split <;> exact ⟨rfl, rfl, rfl, rfl, rfl, rfl, rfl, rfl⟩
  · intro u hu hne
    exact (mem_reducer_delete_iff state taskId u).mpr ⟨hu, hne⟩
  · intro u hu
    exact (mem_reducer_delete_iff state taskId u).mp hu

/-- Witness for C10: a task with id 2 is untouched by a toggle aimed at id 1
and survives a delete aimed at id 1. -/
theorem C10_reducer_frame_witness :
    applyToggle 1 (mkTask 2 Status.todo) = mkTask 2 Status.todo ∧
    mkTask 2 Status.todo ∈ optimisticReducer [mkTask 2 Status.todo]
      (OptimisticAction.delete 1) := by
  refine ⟨(C10_reducer_frame 1 (mkTask 2 Status.todo) []).1 (by decide), ?_⟩
  exact (C10_reducer_frame 1 (mkTask 2 Status.todo) [mkTask 2 Status.todo]).2.2.2.1
    (mkTask 2 Status.todo) (List.mem_singleton.mpr rfl) (by decide)

end TaskFlow
